import Mathlib

/-!
Verification of the slide table-building and aggregation engine of the
mock-agent repository (backend/services/powerpoint_service.py), against its
natural-language specification.

Modelling conventions:
* pandas float64 data is idealised as exact rationals (ℚ); IEEE NaN — which
  pandas produces for mean/max/min of an empty series — is modelled as the
  value none of Option ℚ.  CSV columns are modelled with float dtype, so an
  aggregated value prints through the float formatting branch of
  _format_value.
* A pandas DataFrame is a list of column names plus a list of rows, each row
  an association list from column name to value.
* Filter dicts (field/operator/value, operator defaulting to the equality
  string) become the FilterPredicate structure; a missing field key is
  modelled as the empty string, which the code skips just like an absent
  column (the guard on field_name tests truthiness and membership).
* In _fill_table_row_new, the guard comparing row_idx with table.rows is
  modelled as a bounds check on the row count; it can never fire for tables
  produced by _create_data_table (which allocates one table row per
  specification plus a header), so it is dropped.  Likewise the loop over
  range(1, table.columns) is modelled as blanking one cell per metric column.
* Cell styling, geometry and the header row's display text
  (_format_header_name, underscores to spaces plus title case) are
  presentational only and are not modelled; the identity of the table's
  columns is kept as the raw metric field names.
-/

/-- Embeds one entry of the filters list consumed by
_calculate_metric_value_with_filters (a dict with keys field, operator,
value; operator defaults to the equality string). -/
structure FilterPredicate where
  field : String
  operator : String := "=="
  value : ℚ
  deriving DecidableEq

/-- Embeds models.SlideFieldSelection (backend/models.py). -/
structure SlideFieldSelection where
  row_label : String
  metric_fields : List String
  is_group_header : Bool := false
  spans_all_columns : Bool := false
  is_aggregate : Bool := false
  filters : List FilterPredicate := []
  aggregation : String := "sum"
  rationale : Option String := none
  component_rows : List String := []
  deriving DecidableEq

/-- A loaded tabular dataset (pandas DataFrame): column names plus rows,
each row an association list from column name to value. -/
structure DataFrame where
  columns : List String
  rows : List (List (String × ℚ))
  deriving DecidableEq

/-- Value of one cell of a dataset row (lookup by column name; the datasets
read from CSV are rectangular, so for a column of the frame the key is
present and the default is never used). -/
def getCell (r : List (String × ℚ)) (c : String) : ℚ :=
  (r.lookup c).getD 0

/-- The column of values a pandas series access filtered_df[metric_field]
denotes, in row order. -/
def columnValues (df : DataFrame) (c : String) : List ℚ :=
  df.rows.map (fun r => getCell r c)

/-- Embeds the operator dispatch of one filter iteration
(powerpoint_service.py lines 261-272): each recognised comparison operator
keeps the rows whose cell compares against the filter value; an
unrecognised operator leaves the rows unchanged (no elif matches). -/
def filterRows (op : String) (field : String) (v : ℚ) (rows : List (List (String × ℚ))) :
    List (List (String × ℚ)) :=
  if op = "==" then rows.filter (fun r => getCell r field = v)
  else if op = "!=" then rows.filter (fun r => getCell r field ≠ v)
  else if op = ">" then rows.filter (fun r => v < getCell r field)
  else if op = "<" then rows.filter (fun r => getCell r field < v)
  else if op = ">=" then rows.filter (fun r => v ≤ getCell r field)
  else if op = "<=" then rows.filter (fun r => getCell r field ≤ v)
  else rows

/-- Embeds one iteration of the filter loop (lines 254-272): the filter is
applied only when field_name is truthy and names a column of the frame;
otherwise it is skipped. -/
def applyFilterStep (df : DataFrame) (f : FilterPredicate) : DataFrame :=
  if f.field ≠ "" ∧ f.field ∈ df.columns then
    { df with rows := filterRows f.operator f.field f.value df.rows }
  else df

/-- Embeds the whole filter loop of _calculate_metric_value_with_filters
(lines 252-272). -/
def applyFilters (df : DataFrame) (fs : List FilterPredicate) : DataFrame :=
  fs.foldl applyFilterStep df

/-- Embeds _calculate_metric_value_with_filters (lines 244-294): filter the
frame, return 0 if the metric field is not a column, else aggregate the
column per the aggregation kind, defaulting to sum.  none models the NaN
pandas returns for the mean/max/min of an empty series; the sum and count
of an empty series are 0. -/
def calculate_metric_value_with_filters (df : DataFrame) (metricField : String)
    (aggKind : String) (filters : List FilterPredicate) : Option ℚ :=
  let fdf := applyFilters df filters
  if metricField ∈ fdf.columns then
    let vals := columnValues fdf metricField
    if aggKind = "sum" then some vals.sum
    else if aggKind = "average" ∨ aggKind = "mean" then
      if vals.length = 0 then none else some (vals.sum / vals.length)
    else if aggKind = "count" then some (vals.length : ℚ)
    else if aggKind = "max" then vals.max?
    else if aggKind = "min" then vals.min?
    else some vals.sum
  else some 0

/-- Keyword lists of _format_value (lines 384-388). -/
def monetaryKeywords : List String :=
  ["actualincurred", "nominalreserves", "discountedreserves", "ocl",
   "changeinocl", "reserves", "incurred", "claim"]

def rateKeywords : List String := ["rate", "ratio", "percent"]

def countKeywords : List String := ["count", "number", "quantity", "year"]

/-- Prefix test on character lists. -/
def charPrefix : List Char → List Char → Bool
  | [], _ => true
  | _ :: _, [] => false
  | a :: as, b :: bs => a = b && charPrefix as bs

/-- Substring test on character lists: the pattern occurs at some
position. -/
def charInfix : List Char → List Char → Bool
  | pat, [] => charPrefix pat []
  | pat, s@(_ :: rest) => charPrefix pat s || charInfix pat rest

/-- Python substring membership keyword in field_name.lower(). -/
def hasKeyword (fieldName : String) (ks : List String) : Bool :=
  ks.any (fun k => charInfix k.data (fieldName.data.map Char.toLower))

/-- Round the scaled rational (n * scale) / d, with d positive, to the
nearest integer, ties to even (the rounding of Python float formatting, on
the ℚ idealisation of float64).  Stated on the numerator and denominator
so that it evaluates by kernel reduction. -/
def roundScaledHalfEven (n : ℤ) (d : ℕ) (scale : ℕ) : ℤ :=
  let nn := n * scale
  let f := nn.fdiv d
  let rem := nn - f * d
  if 2 * rem < (d : ℤ) then f
  else if (d : ℤ) < 2 * rem then f + 1
  else if f % 2 = 0 then f else f + 1

/-- Round a rational to the nearest integer, ties to even. -/
def roundHalfEven (q : ℚ) : ℤ := roundScaledHalfEven q.num q.den 1

/-- Group the digits of a reversed digit string in threes with commas. -/
def groupRev : List Char → List Char
  | a :: b :: c :: d :: rest => a :: b :: c :: ',' :: groupRev (d :: rest)
  | l => l

/-- Insert thousands separators into a digit string. -/
def insertCommas (s : String) : String :=
  String.mk ((groupRev s.toList.reverse).reverse)

/-- Python format spec comma zero-decimals (used as dollar amounts and
grouped integers in _format_value). -/
def formatFixed0 (x : ℚ) : String :=
  let n := roundHalfEven x
  (if n < 0 then "-" else "") ++ insertCommas (toString n.natAbs)

/-- Two-decimal rendering without grouping (Python format spec .2f): the
value times 100 is rounded half-even, then split into integer and
fractional digits. -/
def formatPlain2 (x : ℚ) : String :=
  let n := roundScaledHalfEven x.num x.den 100
  let a := n.natAbs
  (if n < 0 then "-" else "") ++ toString (a / 100) ++ "." ++
    (if a % 100 < 10 then "0" else "") ++ toString (a % 100)

/-- Two-decimal rendering with grouping (Python format spec comma .2f). -/
def formatGrouped2 (x : ℚ) : String :=
  let n := roundScaledHalfEven x.num x.den 100
  let a := n.natAbs
  (if n < 0 then "-" else "") ++ insertCommas (toString (a / 100)) ++ "." ++
    (if a % 100 < 10 then "0" else "") ++ toString (a % 100)

/-- Percent rendering (Python format spec .2%): the value times 100 shown
with two decimals and a percent sign. -/
def formatPercent2 (x : ℚ) : String :=
  let n := roundScaledHalfEven x.num x.den 10000
  let a := n.natAbs
  (if n < 0 then "-" else "") ++ toString (a / 100) ++ "." ++
    (if a % 100 < 10 then "0" else "") ++ toString (a % 100) ++ "%"

/-- Embeds _format_value (lines 377-395).  A value of exactly zero renders
as the dash placeholder (NaN compares unequal to zero, so none skips that
branch and prints as Python prints NaN under each format spec).  The final
branch renders through the float format (see the float-dtype modelling
note); no argument of the embedding raises, so the except fallback
returning the N/A string is unreachable. -/
def format_value (v : Option ℚ) (fieldName : String) : String :=
  if v = some 0 then "-"
  else if hasKeyword fieldName monetaryKeywords then
    match v with
    | some x => "$" ++ formatFixed0 x
    | none => "$nan"
  else if hasKeyword fieldName rateKeywords then
    match v with
    | some x => if x ≤ 1 then formatPercent2 x else formatPlain2 x ++ "%"
    | none => "nan%"
  else if hasKeyword fieldName countKeywords then
    match v with
    | some x => formatFixed0 x
    | none => "nan"
  else
    match v with
    | some x => formatGrouped2 x
    | none => "nan"

/-- Embeds the per-cell body of _fill_metric_columns (lines 212-239): a
metric column the row does not declare gets an empty cell; a declared
metric field absent from the dataset gets the N/A placeholder; otherwise
the aggregated value is computed and formatted. -/
def metric_cell_text (f : SlideFieldSelection) (metricField : String) (df : DataFrame) :
    String :=
  if metricField ∈ f.metric_fields then
    if metricField ∈ df.columns then
      format_value (calculate_metric_value_with_filters df metricField f.aggregation f.filters)
        metricField
    else "N/A"
  else ""

/-- Embeds _fill_metric_columns (lines 206-242): one cell per metric
column, in column order. -/
def fill_metric_columns (f : SlideFieldSelection) (cols : List String) (df : DataFrame) :
    List String :=
  cols.map (fun m => metric_cell_text f m df)

/-- Embeds the branching of _fill_table_row_new (lines 185-201) on the
metric cells of one row: a group header spanning all columns has every
metric cell blanked; any other row (group header or not) has its metric
columns filled by _fill_metric_columns.  The is_group_header argument of
_fill_metric_columns only selects styling and is not modelled. -/
def row_metric_cells (f : SlideFieldSelection) (cols : List String) (df : DataFrame) :
    List String :=
  if f.is_group_header then
    if f.spans_all_columns then cols.map (fun _ => "")
    else fill_metric_columns f cols df
  else fill_metric_columns f cols df

/-- Embeds _fill_table_row_new (lines 172-204): the label cell followed by
the metric cells. -/
def fill_table_row_new (f : SlideFieldSelection) (cols : List String) (df : DataFrame) :
    List String :=
  f.row_label :: row_metric_cells f cols df

/-- One step of the column-collection loop of _create_data_table (lines
117-120): append the metric field unless already collected. -/
def addColumn (acc : List String) (m : String) : List String :=
  if m ∈ acc then acc else acc ++ [m]

/-- Embeds the column collection of _create_data_table (lines 114-120): the
metric fields of every row, first-seen order, duplicates dropped.  The
truthiness guard on field.metric_fields is a no-op (iterating an empty list
adds nothing) and is absorbed by the fold. -/
def all_metric_fields (fields : List SlideFieldSelection) : List String :=
  fields.foldl (fun acc f => f.metric_fields.foldl addColumn acc) []

/-- The table data produced on a slide: the identity of the metric columns
and the cell strings of each body row (label cell first).  The header row's
display text and all styling are presentational and not modelled. -/
structure TableStructure where
  colFields : List String
  rows : List (List String)
  deriving DecidableEq

/-- Embeds _create_data_table (lines 109-152): collect the metric columns;
if none, return without adding a table (none); otherwise build one body row
per field specification. -/
def create_data_table (fields : List SlideFieldSelection) (df : DataFrame) :
    Option TableStructure :=
  let cols := all_metric_fields fields
  if cols = [] then none
  else some ⟨cols, fields.map (fun f => fill_table_row_new f cols df)⟩

/-- Example dataset: two rows, a line-of-business tag column and a reserve
column (nonzero values so formatting is exercised). -/
def exDf : DataFrame :=
  ⟨["lob", "ocl"], [[("lob", 1), ("ocl", 100)], [("lob", 2), ("ocl", 50)]]⟩

/-- Example leaf row: reads the reserve column of lob 1. -/
def exLob1 : SlideFieldSelection :=
  { row_label := "LOB1", metric_fields := ["ocl"],
    filters := [{ field := "lob", value := 1 }] }

/-- Example leaf row: reads the reserve column of lob 2. -/
def exLob2 : SlideFieldSelection :=
  { row_label := "LOB2", metric_fields := ["ocl"],
    filters := [{ field := "lob", value := 2 }] }

/-- Example aggregate row: declares the two leaf rows as components and a
max aggregation of its own. -/
def exTotal : SlideFieldSelection :=
  { row_label := "Total", metric_fields := ["ocl"], is_aggregate := true,
    aggregation := "max", component_rows := ["LOB1", "LOB2"] }

/-- Example aggregate row with a dangling component reference. -/
def exDangling : SlideFieldSelection :=
  { row_label := "Total", metric_fields := ["ocl"], is_aggregate := true,
    component_rows := ["Ghost"] }

/-- Example aggregate rows referencing each other cyclically. -/
def exCycA : SlideFieldSelection :=
  { row_label := "A", metric_fields := ["ocl"], is_aggregate := true,
    component_rows := ["B"] }

def exCycB : SlideFieldSelection :=
  { row_label := "B", metric_fields := ["ocl"], is_aggregate := true,
    component_rows := ["A"] }

/-- Example row with every conflicting flag set at once. -/
def exConflict : SlideFieldSelection :=
  { row_label := "Mix", metric_fields := ["ocl"], is_group_header := true,
    spans_all_columns := true, is_aggregate := true, component_rows := ["A"] }

/-- Example group header that does not span all columns yet declares a
metric field. -/
def exGh : SlideFieldSelection :=
  { row_label := "Group", metric_fields := ["ocl"], is_group_header := true }

/-- Example spanning group header declaring a metric field of its own. -/
def exHdrX : SlideFieldSelection :=
  { row_label := "Hdr", metric_fields := ["x1"], is_group_header := true,
    spans_all_columns := true }

/-- Example leaf row for the column-collection examples. -/
def exLeafY : SlideFieldSelection :=
  { row_label := "Leaf", metric_fields := ["ocl"] }

/-- Filter predicate naming a field absent from exDf. -/
def exGhostFilter : FilterPredicate := { field := "ghost", value := 1 }

/-- Example leaf row carrying the absent-field filter. -/
def exFilteredRow : SlideFieldSelection :=
  { row_label := "W", metric_fields := ["ocl"], filters := [exGhostFilter] }

/-- Example dataset whose only column sums to exactly zero. -/
def exZeroDf : DataFrame := ⟨["zcol"], [[("zcol", 0)]]⟩

/-- Example leaf row over the zero-valued column. -/
def exZeroRow : SlideFieldSelection := { row_label := "Z", metric_fields := ["zcol"] }

/-- Example leaf row declaring a metric field no dataset column provides. -/
def exMissingRow : SlideFieldSelection := { row_label := "M", metric_fields := ["ghost"] }

/-- Claim-side (spec wording): duplicate removal keeping the first
occurrence, the union in first-seen order. -/
def dedupFirst : List String → List String
  | [] => []
  | a :: l => a :: (dedupFirst l).filter (fun b => decide (b ≠ a))

/-- Claim-side reading of C3: the union, in first-seen order, of the
metric_fields entries of the non-header rows only. -/
def claimColumnsNonHeader (fields : List SlideFieldSelection) : List String :=
  dedupFirst
    (((fields.filter (fun f => !f.is_group_header)).map (fun f => f.metric_fields)).flatten)

/-- Spec-side reading of C8: the scalar per aggregation kind —
sum, average/mean, count, max, min over the column of values — with sum as
the fallback. -/
def specAggregate (aggKind : String) (vals : List ℚ) : Option ℚ :=
  if aggKind = "sum" then some vals.sum
  else if aggKind = "average" ∨ aggKind = "mean" then
    if vals = [] then none else some (vals.sum / vals.length)
  else if aggKind = "count" then some (vals.length : ℚ)
  else if aggKind = "max" then vals.max?
  else if aggKind = "min" then vals.min?
  else some vals.sum

/-- Filtering never changes the column set of the frame (one step). -/
theorem applyFilterStep_columns (df : DataFrame) (f : FilterPredicate) :
    (applyFilterStep df f).columns = df.columns := by
  unfold applyFilterStep
  split <;> rfl

/-- Filtering never changes the column set of the frame. -/
theorem applyFilters_columns (df : DataFrame) (fs : List FilterPredicate) :
    (applyFilters df fs).columns = df.columns := by
  induction fs generalizing df with
  | nil => rfl
  | cons f fs ih =>
      show (applyFilters (applyFilterStep df f) fs).columns = df.columns
      rw [ih, applyFilterStep_columns]

/-- A filter whose field is not a column of the frame leaves the frame
unchanged. -/
theorem applyFilterStep_absent (df : DataFrame) (p : FilterPredicate)
    (hp : p.field ∉ df.columns) : applyFilterStep df p = df := by
  unfold applyFilterStep
  rw [if_neg (show ¬(p.field ≠ "" ∧ p.field ∈ df.columns) from fun h => hp h.2)]

/-- A filter whose field is not a column of the frame is skipped wherever it
occurs in the filter list. -/
theorem applyFilters_absent_middle (df : DataFrame) (l1 l2 : List FilterPredicate)
    (p : FilterPredicate) (hp : p.field ∉ df.columns) :
    applyFilters df (l1 ++ p :: l2) = applyFilters df (l1 ++ l2) := by
  unfold applyFilters
  rw [List.foldl_append, List.foldl_append, List.foldl_cons]
  congr 1
  refine applyFilterStep_absent _ p ?_
  show p.field ∉ (applyFilters df l1).columns
  rw [applyFilters_columns df l1]
  exact hp

/-- A filter whose field is not a column of the frame does not change the
computed metric value. -/
theorem calc_filter_absent (df : DataFrame) (metricField aggKind : String)
    (l1 l2 : List FilterPredicate) (p : FilterPredicate) (hp : p.field ∉ df.columns) :
    calculate_metric_value_with_filters df metricField aggKind (l1 ++ p :: l2) =
      calculate_metric_value_with_filters df metricField aggKind (l1 ++ l2) := by
  unfold calculate_metric_value_with_filters
  rw [applyFilters_absent_middle df l1 l2 p hp]

/-- A group header that spans all columns has every metric cell blanked. -/
theorem span_header_cells_blank (f : SlideFieldSelection) (cols : List String)
    (df : DataFrame) (h1 : f.is_group_header = true) (h2 : f.spans_all_columns = true) :
    row_metric_cells f cols df = cols.map (fun _ => "") := by
  simp [row_metric_cells, h1, h2]

/-- Mapping a constant over a list is replication. -/
theorem map_const_replicate (cols : List String) :
    (cols.map (fun _ => "")) = List.replicate cols.length "" := by
  induction cols with
  | nil => rfl
  | cons a l ih => simp [ih, List.replicate_succ]

/-- Empty test of the mean branch, by length or by the list itself. -/
theorem meanEmptyIff (vals : List ℚ) :
    (if vals.length = 0 then (none : Option ℚ) else some (vals.sum / vals.length)) =
      (if vals = [] then none else some (vals.sum / vals.length)) := by
  cases vals <;> simp

/-- Folding the append-if-new step over a list starting from an accumulator
appends exactly the first-seen-order union of the not-yet-collected
entries. -/
theorem foldl_addColumn_eq (l : List String) : ∀ acc : List String,
    l.foldl addColumn acc = acc ++ (dedupFirst l).filter (fun m => decide (m ∉ acc)) := by
  induction l with
  | nil => intro acc; simp [dedupFirst]
  | cons a l ih =>
    intro acc
    rw [List.foldl_cons]
    by_cases ha : a ∈ acc
    · have hstep : addColumn acc a = acc := if_pos ha
      rw [hstep, ih acc]
      congr 1
      simp only [dedupFirst]
      rw [List.filter_cons]
      have hpa : decide (a ∉ acc) = false := by simp [ha]
      rw [hpa]
      simp only [Bool.false_eq_true, if_false]
      rw [List.filter_filter]
      apply List.filter_congr
      intro b hb
      by_cases hba : b = a
      · subst hba; simp [ha]
      · simp [hba]
    · have hstep : addColumn acc a = acc ++ [a] := if_neg ha
      rw [hstep, ih (acc ++ [a])]
      simp only [dedupFirst]
      rw [List.filter_cons]
      have hpa : decide (a ∉ acc) = true := by simp [ha]
      rw [hpa]
      simp only [if_true]
      rw [List.append_assoc, List.singleton_append]
      congr 2
      rw [List.filter_filter]
      apply List.filter_congr
      intro b hb
      by_cases hba : b = a
      · subst hba; simp [List.mem_append]
      · by_cases hbacc : b ∈ acc <;> simp [hba, hbacc, List.mem_append]

/-- The nested column-collection fold equals the fold over the flattened
metric field lists. -/
theorem all_metric_fields_flatten (fields : List SlideFieldSelection) : ∀ acc : List String,
    fields.foldl (fun acc2 f => f.metric_fields.foldl addColumn acc2) acc =
      ((fields.map (fun f => f.metric_fields)).flatten).foldl addColumn acc := by
  induction fields with
  | nil => intro acc; rfl
  | cons f fs ih =>
    intro acc
    rw [List.foldl_cons, List.map_cons, List.flatten_cons, List.foldl_append, ih]

/-- Concrete evaluation: summing the reserve column of exDf. -/
theorem calc_exDf_sum :
    calculate_metric_value_with_filters exDf "ocl" "sum" [] = some 150 := by
  simp [calculate_metric_value_with_filters, applyFilters, columnValues, getCell, exDf,
    List.lookup]
  norm_num

/-- Concrete evaluation: the lob 1 leaf row of exDf. -/
theorem calc_exLob1 :
    calculate_metric_value_with_filters exDf "ocl" exLob1.aggregation exLob1.filters =
      some 100 := by
  simp [calculate_metric_value_with_filters, applyFilters, applyFilterStep, filterRows,
    columnValues, getCell, exDf, exLob1, List.filter, List.lookup]

/-- Concrete evaluation: the lob 2 leaf row of exDf. -/
theorem calc_exLob2 :
    calculate_metric_value_with_filters exDf "ocl" exLob2.aggregation exLob2.filters =
      some 50 := by
  simp [calculate_metric_value_with_filters, applyFilters, applyFilterStep, filterRows,
    columnValues, getCell, exDf, exLob2, List.filter, List.lookup]

/-- Concrete evaluation: the aggregate row exTotal is computed from the raw
dataset with its own max aggregation. -/
theorem calc_exTotal :
    calculate_metric_value_with_filters exDf "ocl" exTotal.aggregation exTotal.filters =
      some 100 := by
  simp [calculate_metric_value_with_filters, applyFilters, columnValues, getCell, exDf,
    exTotal, List.max?, List.lookup, max_def]
  norm_num

/-- Concrete evaluation: the zero-valued column sums to exactly zero. -/
theorem calc_exZero :
    calculate_metric_value_with_filters exZeroDf "zcol" "sum" [] = some 0 := by
  simp [calculate_metric_value_with_filters, applyFilters, columnValues, getCell, exZeroDf,
    List.lookup]

/-- Concrete cell: any unfiltered sum row over the reserve column of exDf
renders as the 150 dollar amount. -/
theorem cell_sum_ocl (f : SlideFieldSelection) (h1 : "ocl" ∈ f.metric_fields)
    (h2 : f.aggregation = "sum") (h3 : f.filters = []) :
    metric_cell_text f "ocl" exDf = "$150" := by
  unfold metric_cell_text
  rw [if_pos h1, if_pos (show "ocl" ∈ exDf.columns by decide), h2, h3, calc_exDf_sum]
  decide

/-- Concrete cell of exLob1. -/
theorem cell_exLob1 : metric_cell_text exLob1 "ocl" exDf = "$100" := by
  unfold metric_cell_text
  rw [if_pos (show "ocl" ∈ exLob1.metric_fields by decide),
    if_pos (show "ocl" ∈ exDf.columns by decide), calc_exLob1]
  decide

/-- Concrete cell of exLob2. -/
theorem cell_exLob2 : metric_cell_text exLob2 "ocl" exDf = "$50" := by
  unfold metric_cell_text
  rw [if_pos (show "ocl" ∈ exLob2.metric_fields by decide),
    if_pos (show "ocl" ∈ exDf.columns by decide), calc_exLob2]
  decide

/-- Concrete cell of the aggregate row exTotal. -/
theorem cell_exTotal : metric_cell_text exTotal "ocl" exDf = "$100" := by
  unfold metric_cell_text
  rw [if_pos (show "ocl" ∈ exTotal.metric_fields by decide),
    if_pos (show "ocl" ∈ exDf.columns by decide), calc_exTotal]
  decide

/-- Counterexample to C1: in the slide [exLob1, exLob2, exTotal] over exDf,
the aggregate row Total (component_rows LOB1 and LOB2, own aggregation max)
is rendered from the raw dataset as the column maximum 100, not as the
component sum 100 + 50 = 150: component_rows is never consulted and the
aggregate row's own aggregation setting is applied. -/
theorem c1_aggregate_counterexample :
    exTotal.is_aggregate = true ∧ exTotal.component_rows = ["LOB1", "LOB2"] ∧
    exTotal.aggregation = "max" ∧
    create_data_table [exLob1, exLob2, exTotal] exDf =
      some ⟨["ocl"], [["LOB1", "$100"], ["LOB2", "$50"], ["Total", "$100"]]⟩ ∧
    calculate_metric_value_with_filters exDf "ocl" exLob1.aggregation exLob1.filters =
      some 100 ∧
    calculate_metric_value_with_filters exDf "ocl" exLob2.aggregation exLob2.filters =
      some 50 ∧
    metric_cell_text exTotal "ocl" exDf = "$100" ∧
    format_value (some (100 + 50)) "ocl" = "$150" ∧
    ("$100" : String) ≠ "$150" := by
  refine ⟨rfl, rfl, rfl, ?_, calc_exLob1, calc_exLob2, cell_exTotal, ?_, by decide⟩
  · rw [show create_data_table [exLob1, exLob2, exTotal] exDf =
        some ⟨["ocl"], ["LOB1" :: [metric_cell_text exLob1 "ocl" exDf],
          "LOB2" :: [metric_cell_text exLob2 "ocl" exDf],
          "Total" :: [metric_cell_text exTotal "ocl" exDf]]⟩ from rfl,
      cell_exLob1, cell_exLob2, cell_exTotal]
  · rw [show (100 + 50 : ℚ) = 150 from by norm_num]
    decide

/-- C1 (amended): rows flagged is_aggregate receive no special treatment —
clearing the is_aggregate flag and the component_rows list of every row of
a slide leaves the built table unchanged, so an aggregate row's cells are
computed directly from the dataset with the row's own filters and its own
aggregation, exactly like a leaf row. -/
theorem c1_aggregate_rows_not_special (fields : List SlideFieldSelection) (df : DataFrame) :
    create_data_table
        (fields.map (fun f => { f with is_aggregate := false, component_rows := [] })) df =
      create_data_table fields df := by
  simp only [create_data_table]
  have hcols :
      all_metric_fields
          (fields.map (fun f => { f with is_aggregate := false, component_rows := [] })) =
        all_metric_fields fields := by
    unfold all_metric_fields
    rw [List.foldl_map]
  rw [hcols]
  by_cases h : all_metric_fields fields = []
  · rw [if_pos h, if_pos h]
  · rw [if_neg h, if_neg h]
    congr 2
    rw [List.map_map]
    rfl

/-- Counterexample to C2: the builder raises no error at all.  A slide
whose single aggregate row references the nonexistent component label Ghost
builds a complete ordinary table, and so does a slide whose two aggregate
rows reference each other cyclically; no UnknownComponentRow or
CyclicAggregateReference failure exists in the builder. -/
theorem c2_builder_counterexample :
    exDangling.component_rows = ["Ghost"] ∧
    [exDangling].map (fun f => f.row_label) = ["Total"] ∧
    "Ghost" ∉ (["Total"] : List String) ∧
    create_data_table [exDangling] exDf = some ⟨["ocl"], [["Total", "$150"]]⟩ ∧
    exCycA.component_rows = ["B"] ∧ exCycB.component_rows = ["A"] ∧
    create_data_table [exCycA, exCycB] exDf =
      some ⟨["ocl"], [["A", "$150"], ["B", "$150"]]⟩ := by
  refine ⟨rfl, rfl, by decide, ?_, rfl, rfl, ?_⟩
  · rw [show create_data_table [exDangling] exDf =
        some ⟨["ocl"], ["Total" :: [metric_cell_text exDangling "ocl" exDf]]⟩ from rfl,
      cell_sum_ocl exDangling (by decide) rfl rfl]
  · rw [show create_data_table [exCycA, exCycB] exDf =
        some ⟨["ocl"], ["A" :: [metric_cell_text exCycA "ocl" exDf],
          "B" :: [metric_cell_text exCycB "ocl" exDf]]⟩ from rfl,
      cell_sum_ocl exCycA (by decide) rfl rfl, cell_sum_ocl exCycB (by decide) rfl rfl]

/-- C2 (amended): the slide table builder never raises: missing data
degrades to the N/A and dash placeholders inside the cells, and dangling or
cyclic component_rows references are ignored — whenever any row declares a
metric field, a complete table with one body row per row specification is
produced. -/
theorem c2_builder_total (fields : List SlideFieldSelection) (df : DataFrame)
    (h : all_metric_fields fields ≠ []) :
    ∃ t, create_data_table fields df = some t ∧ t.rows.length = fields.length := by
  refine ⟨⟨all_metric_fields fields,
    fields.map (fun f => fill_table_row_new f (all_metric_fields fields) df)⟩, ?_, ?_⟩
  · simp only [create_data_table]
    rw [if_neg h]
  · exact List.length_map fields _

/-- Witness for C2 (amended), at the dangling-reference slide. -/
theorem c2_builder_total_witness :
    ∃ t, create_data_table [exDangling] exDf = some t ∧ t.rows.length = 1 :=
  c2_builder_total [exDangling] exDf (by decide)

/-- Counterexample to C3: the column collection also takes the metric
fields of group-header rows.  The spanning group header exHdrX declares the
field x1 no other row declares, and x1 becomes a column, whereas the claim
says the columns come from the non-header rows only. -/
theorem c3_columns_counterexample :
    exHdrX.is_group_header = true ∧
    all_metric_fields [exHdrX, exLeafY] = ["x1", "ocl"] ∧
    claimColumnsNonHeader [exHdrX, exLeafY] = ["ocl"] ∧
    (["x1", "ocl"] : List String) ≠ ["ocl"] := by
  decide

/-- C3 (amended): the built table's column set is the union, in first-seen
order, of the metric_fields entries of all rows of the slide, group-header
rows included. -/
theorem c3_columns_all_rows (fields : List SlideFieldSelection) :
    all_metric_fields fields =
      dedupFirst ((fields.map (fun f => f.metric_fields)).flatten) := by
  unfold all_metric_fields
  rw [all_metric_fields_flatten fields [], foldl_addColumn_eq]
  simp

/-- Counterexample to C4: a row with is_group_header, spans_all_columns and
is_aggregate all set is not rejected; the builder silently renders it as a
spanning group header with blank metric cells. -/
theorem c4_conflict_counterexample :
    exConflict.is_group_header = true ∧ exConflict.spans_all_columns = true ∧
    exConflict.is_aggregate = true ∧
    create_data_table [exConflict] exDf = some ⟨["ocl"], [["Mix", ""]]⟩ := by
  decide

/-- C4 (amended): conflicting flag combinations are not detected as errors;
a row with is_group_header, spans_all_columns and is_aggregate all true is
silently rendered as a spanning group header — the label followed by blank
metric cells — and its is_aggregate flag is ignored. -/
theorem c4_conflict_silent (f : SlideFieldSelection) (cols : List String) (df : DataFrame)
    (h1 : f.is_group_header = true) (h2 : f.spans_all_columns = true)
    (_h3 : f.is_aggregate = true) :
    fill_table_row_new f cols df = f.row_label :: cols.map (fun _ => "") := by
  unfold fill_table_row_new
  rw [span_header_cells_blank f cols df h1 h2]

/-- Witness for C4 (amended), at the all-flags row. -/
theorem c4_conflict_silent_witness :
    fill_table_row_new exConflict ["ocl"] exDf = "Mix" :: ["ocl"].map (fun _ => "") :=
  c4_conflict_silent exConflict ["ocl"] exDf rfl rfl rfl

/-- Counterexample to C5: a group-header row that does not span all columns
is not label-only — its declared metric cells are computed from the
dataset: exGh is a group header yet its reserve cell renders the dataset
sum as a dollar amount. -/
theorem c5_group_header_counterexample :
    exGh.is_group_header = true ∧ exGh.spans_all_columns = false ∧
    row_metric_cells exGh ["ocl"] exDf = ["$150"] ∧ ("$150" : String) ≠ "" := by
  refine ⟨rfl, rfl, ?_, by decide⟩
  rw [show row_metric_cells exGh ["ocl"] exDf = [metric_cell_text exGh "ocl" exDf] from rfl,
    cell_sum_ocl exGh (by decide) rfl rfl]

/-- C5 (amended): a group-header row that spans all columns is label-only
with blank metric cells; a group-header row that does not span all columns
has its metric cells computed exactly as a regular data row (only the
styling differs). -/
theorem c5_group_header_modes (f : SlideFieldSelection) (cols : List String)
    (df : DataFrame) (h1 : f.is_group_header = true) :
    (f.spans_all_columns = true → row_metric_cells f cols df = cols.map (fun _ => "")) ∧
    (f.spans_all_columns = false → row_metric_cells f cols df =
      row_metric_cells { f with is_group_header := false } cols df) := by
  constructor
  · intro h2
    exact span_header_cells_blank f cols df h1 h2
  · intro h2
    simp only [row_metric_cells, h1, h2, if_true, if_false, Bool.false_eq_true]
    rfl

/-- Witness for C5 (amended), at the non-spanning group header exGh. -/
theorem c5_group_header_modes_witness :
    row_metric_cells exGh ["ocl"] exDf =
      row_metric_cells { exGh with is_group_header := false } ["ocl"] exDf :=
  (c5_group_header_modes exGh ["ocl"] exDf rfl).2 rfl

/-- C6 (confirmed): a filter predicate whose field is absent from the
dataset's columns is treated as vacuously true — evaluating a row's cell
with such a predicate anywhere in its filter list yields exactly the same
result as evaluating with the predicate omitted entirely. -/
theorem c6_filter_tolerance (f : SlideFieldSelection) (metricField : String)
    (df : DataFrame) (l1 l2 : List FilterPredicate) (p : FilterPredicate)
    (hp : p.field ∉ df.columns) (hf : f.filters = l1 ++ p :: l2) :
    metric_cell_text f metricField df =
      metric_cell_text { f with filters := l1 ++ l2 } metricField df := by
  unfold metric_cell_text
  rw [hf, calc_filter_absent df metricField f.aggregation l1 l2 p hp]

/-- Witness for C6, with an absent-field filter on a leaf row of exDf. -/
theorem c6_filter_tolerance_witness :
    metric_cell_text exFilteredRow "ocl" exDf =
      metric_cell_text { exFilteredRow with filters := [] } "ocl" exDf :=
  c6_filter_tolerance exFilteredRow "ocl" exDf [] [] exGhostFilter (by decide) rfl

/-- C7 (confirmed): a metric field declared by the row but absent from the
dataset yields the cell text exactly N/A, and a computed value of exactly
zero yields the cell text exactly the dash; the two placeholders are never
interchanged. -/
theorem c7_placeholders (f : SlideFieldSelection) (metricField : String) (df : DataFrame)
    (h : metricField ∈ f.metric_fields) :
    (metricField ∉ df.columns → metric_cell_text f metricField df = "N/A") ∧
    (metricField ∈ df.columns →
      calculate_metric_value_with_filters df metricField f.aggregation f.filters = some 0 →
      metric_cell_text f metricField df = "-") := by
  constructor
  · intro hm
    unfold metric_cell_text
    rw [if_pos h, if_neg hm]
  · intro hm hz
    unfold metric_cell_text
    rw [if_pos h, if_pos hm, hz]
    unfold format_value
    rw [if_pos rfl]

/-- Witness for C7: an absent metric field renders N/A on exDf; the exactly
zero sum over exZeroDf renders the dash. -/
theorem c7_placeholders_witness :
    metric_cell_text exMissingRow "ghost" exDf = "N/A" ∧
    metric_cell_text exZeroRow "zcol" exZeroDf = "-" :=
  ⟨(c7_placeholders exMissingRow "ghost" exDf (by decide)).1 (by decide),
   (c7_placeholders exZeroRow "zcol" exZeroDf (by decide)).2 (by decide) calc_exZero⟩

/-- C8 (confirmed): for a metric field present in the dataset, the engine
first restricts the dataset rows by the filter predicates and then computes
the scalar per the aggregation kind — sum, average/mean, count, max or min
— over the filtered column; the model's aggregation field defaults to
sum. -/
theorem c8_leaf_evaluation (df : DataFrame) (metricField aggKind : String)
    (filters : List FilterPredicate) (h : metricField ∈ df.columns) :
    calculate_metric_value_with_filters df metricField aggKind filters =
      specAggregate aggKind (columnValues (applyFilters df filters) metricField) ∧
    ({ row_label := "r", metric_fields := [] } : SlideFieldSelection).aggregation = "sum" := by
  refine ⟨?_, rfl⟩
  have hc : metricField ∈ (applyFilters df filters).columns := by
    rw [applyFilters_columns]
    exact h
  simp only [calculate_metric_value_with_filters, specAggregate]
  rw [if_pos hc, meanEmptyIff]

/-- Witness for C8, at the mean aggregation over exDf. -/
theorem c8_leaf_evaluation_witness :
    calculate_metric_value_with_filters exDf "ocl" "mean" [] =
      specAggregate "mean" (columnValues (applyFilters exDf []) "ocl") ∧
    ({ row_label := "r", metric_fields := [] } : SlideFieldSelection).aggregation = "sum" :=
  c8_leaf_evaluation exDf "ocl" "mean" [] (by decide)

/-- C9 (confirmed): a row with is_group_header and spans_all_columns both
true has every metric cell empty, for every dataset and column list. -/
theorem c9_spanning_header_blank (f : SlideFieldSelection) (cols : List String)
    (df : DataFrame) (h1 : f.is_group_header = true) (h2 : f.spans_all_columns = true) :
    row_metric_cells f cols df = List.replicate cols.length "" := by
  rw [span_header_cells_blank f cols df h1 h2, map_const_replicate]

/-- Witness for C9, at the spanning header exHdrX. -/
theorem c9_spanning_header_blank_witness :
    row_metric_cells exHdrX ["x1"] exDf = List.replicate 1 "" :=
  c9_spanning_header_blank exHdrX ["x1"] exDf rfl rfl

/-- C10 (confirmed): an aggregation string outside the recognised set falls
through every branch and silently computes exactly what the sum aggregation
computes over the filtered column; no error value exists. -/
theorem c10_unknown_aggregation_sum (df : DataFrame) (metricField aggKind : String)
    (filters : List FilterPredicate)
    (h : aggKind ∉ ["sum", "average", "mean", "count", "max", "min"]) :
    calculate_metric_value_with_filters df metricField aggKind filters =
      calculate_metric_value_with_filters df metricField "sum" filters := by
  simp only [List.mem_cons, List.not_mem_nil, or_false, not_or] at h
  obtain ⟨h1, h2, h3, h4, h5, h6⟩ := h
  simp only [calculate_metric_value_with_filters]
  by_cases hc : metricField ∈ (applyFilters df filters).columns
  · rw [if_pos hc, if_pos hc, if_neg h1, if_neg (not_or.mpr ⟨h2, h3⟩), if_neg h4,
      if_neg h5, if_neg h6, if_pos trivial]
  · rw [if_neg hc, if_neg hc]

/-- Witness for C10, at the unrecognised aggregation median. -/
theorem c10_unknown_aggregation_sum_witness :
    calculate_metric_value_with_filters exDf "ocl" "median" [] =
      calculate_metric_value_with_filters exDf "ocl" "sum" [] :=
  c10_unknown_aggregation_sum exDf "ocl" "median" [] (by decide)
